import Mathlib

/-!
# Claims-CQC: a shallow embedding of the claim-adjudication pipeline

This file embeds, in Lean 4, the parts of the Claims-CQC Python repository
that the verified properties refer to:

* `quality_checks.py` — `QualityChecker.calculate_accuracy_score`,
  `QualityChecker.check_tariffs`, `QualityChecker.evaluate_cashless_status`,
  `QualityChecker._has_implants_in_procedures`,
  `QualityChecker._generate_default_checklist`;
* `gemini_service.py` — `GeminiService._classify_documents_sequential`
  (together with the behaviour of `_generate_with_retry`), the
  approved-amount extraction step of `GeminiService.analyze_claim_sequential`;
* `app.py` — the final-score computation step of `process_claim_async`.

Python `float` values are embedded as `ℚ`; Python strings as `String` with
hand-rolled (kernel-reducible) versions of `lower`, `strip` and the `in`
substring test; Python `dict.get` results as `Option`; Python truthiness of
optional strings/numbers via explicit `pyOr*` helpers; fallible code as
`Except`.  The extraction oracle (Gemini) is external: its response is an
explicit parameter of each embedded function, ranging over the response
shapes the Python code distinguishes.
-/

/-! ## Python-semantics helpers -/

/-- Byte-free prefix test on character lists (kernel reducible). -/
def listPrefixOf : List Char → List Char → Bool
  | [], _ => true
  | _ :: _, [] => false
  | a :: as, b :: bs => a == b && listPrefixOf as bs

/-- Substring occurrence test on character lists. -/
def listContainsSub (haystack needle : List Char) : Bool :=
  match haystack with
  | [] => listPrefixOf needle []
  | _ :: rest => listPrefixOf needle haystack || listContainsSub rest needle

/-- Python `needle in haystack` on strings. -/
def strContains (haystack needle : String) : Bool :=
  listContainsSub haystack.data needle.data

/-- Python `s.lower()` (character-wise, kernel reducible). -/
def pyLower (s : String) : String :=
  ⟨s.data.map Char.toLower⟩

/-- Python `s.strip()` (character-wise, kernel reducible). -/
def pyStrip (s : String) : String :=
  ⟨((s.data.dropWhile Char.isWhitespace).reverse.dropWhile Char.isWhitespace).reverse⟩

/-- Python `a or b` for optional strings (`None` and `''` are falsy). -/
def pyOrStr (a b : Option String) : Option String :=
  match a with
  | some s => if s = "" then b else some s
  | none => b

/-- Python `a or b` for optional numbers (`None` and `0` are falsy). -/
def pyOrNum (a b : Option ℚ) : Option ℚ :=
  match a with
  | some x => if x = 0 then b else some x
  | none => b

/-- Python `a or b` for lists (`None` and `[]` are falsy); `none` stands for
an absent key, which `dict.get(k, [])` turns into `[]`. -/
def pyOrList {α : Type} (a b : List α) : List α :=
  match a with
  | [] => b
  | _ => a

/-- Floor of a rational, written as the executable `num / den`
(Euclidean division); agrees with `Int.floor` by `Rat.floor_def`. -/
def pyFloor (q : ℚ) : ℤ :=
  q.num / (q.den : ℤ)

/-- Python `round(x, 2)`: half-to-even rounding at two decimal places.
On the values reached in this development the argument is exactly
representable, so this matches the float `round` of the source. -/
def pyRound2 (x : ℚ) : ℚ :=
  let y := 100 * x
  let f : ℤ := pyFloor y
  let r := y - (f : ℚ)
  let n : ℤ :=
    if r < 1/2 then f
    else if r > 1/2 then f + 1
    else if f % 2 = 0 then f else f + 1
  (n : ℚ) / 100

/-! ## `quality_checks.py` — `QualityChecker.calculate_accuracy_score`
(lines 195–294)

A quality-check result is one of the dictionaries produced by the
`check_*` methods; `calculate_accuracy_score` only reads the fields below,
so the embedding records exactly those fields (list fields on which the
code only calls `len` are kept as counts of their elements). -/

/-- One entry of a `case_specific_checklist`, with the four fields read by
`calculate_accuracy_score` (after the `_to_bool` coercion the code applies;
`none` stands for an absent/`None` value, on which the code defaults to
`True`). -/
structure CaseItem where
  proof_required : Bool
  proof_available : Bool
  proof_accuracy : Option Bool
  code_valid : Option Bool
deriving DecidableEq, Repr

/-- One entry of a `payer_specific_checklist` (fields `presence`, `accurate`). -/
structure PayerItem where
  presence : Bool
  accurate : Bool
deriving DecidableEq, Repr

/-- A quality-check result dictionary, tagged by its `type` field. -/
inductive CheckResult where
  | patientDetails (discrepancies matchedFields : ℕ)
  | dates (totalItems validCount : ℕ)
  | reports (totalReports matchingCount : ℕ)
  | lineItems (caseChecklist : List CaseItem) (payerChecklist : List PayerItem)
  | comprehensiveChecklist (caseChecklist : List CaseItem) (payerChecklist : List PayerItem)
  | tariffs (totalChecked matched : ℕ)
deriving DecidableEq, Repr

/-- The `type` tag of a result (`result.get('type')`). -/
inductive Cat where
  | patientDetails | dates | reports | lineItems | comprehensiveChecklist | tariffs
deriving DecidableEq, Repr

def CheckResult.cat : CheckResult → Cat
  | .patientDetails _ _ => .patientDetails
  | .dates _ _ => .dates
  | .reports _ _ => .reports
  | .lineItems _ _ => .lineItems
  | .comprehensiveChecklist _ _ => .comprehensiveChecklist
  | .tariffs _ _ => .tariffs

/-- `weights.get(result_type, 0.1)` with the fixed weight table of
`calculate_accuracy_score` (note: the string key of a comprehensive
checklist is `'comprehensive_checklist'`, which is not in the table, so it
gets the default `0.1`). -/
def weightOf : Cat → ℚ
  | .patientDetails => 25/100
  | .dates => 20/100
  | .reports => 15/100
  | .lineItems => 30/100
  | .comprehensiveChecklist => 10/100
  | .tariffs => 10/100

/-- Validity test for one case-checklist entry (the body of the `for item
in case_checklist` loop). -/
def caseItemValid (item : CaseItem) : Bool :=
  let proof_accuracy_bool := item.proof_accuracy.getD true
  let code_valid := item.code_valid.getD true
  (!item.proof_required || (item.proof_available && proof_accuracy_bool)) && code_valid

/-- The checklist branch of `calculate_accuracy_score` (shared by the
`'line_items'` and `'comprehensive_checklist'` result types). -/
def checklistScore (caseChecklist : List CaseItem) (payerChecklist : List PayerItem) : ℚ :=
  if caseChecklist ≠ [] then
    let total_items := caseChecklist.length
    let valid_items := (caseChecklist.filter caseItemValid).length
    if total_items > 0 then (valid_items : ℚ) / (total_items : ℚ) * 100 else 100
  else if payerChecklist ≠ [] then
    let total_docs := payerChecklist.length
    let valid_docs := (payerChecklist.filter (fun i => i.presence && i.accurate)).length
    if total_docs > 0 then (valid_docs : ℚ) / (total_docs : ℚ) * 100 else 100
  else 100

/-- The per-category score each branch of `calculate_accuracy_score`
computes (percent of matched checks, `100` when there is nothing to check). -/
def categoryScore : CheckResult → ℚ
  | .patientDetails d m =>
      let total := d + m
      if total > 0 then (m : ℚ) / (total : ℚ) * 100 else 100
  | .dates total valid =>
      if total > 0 then (valid : ℚ) / (total : ℚ) * 100 else 100
  | .reports total matching =>
      if total > 0 then (matching : ℚ) / (total : ℚ) * 100 else 100
  | .lineItems caseChecklist payerChecklist => checklistScore caseChecklist payerChecklist
  | .comprehensiveChecklist caseChecklist payerChecklist =>
      checklistScore caseChecklist payerChecklist
  | .tariffs total matched =>
      if total > 0 then (matched : ℚ) / (total : ℚ) * 100 else 100

/-- Matched count of a checklist result, as the scoring claim reads it. -/
def checklistMatched (caseChecklist : List CaseItem) (payerChecklist : List PayerItem) : ℕ :=
  if caseChecklist ≠ [] then (caseChecklist.filter caseItemValid).length
  else (payerChecklist.filter (fun i => i.presence && i.accurate)).length

/-- The matched-count of a category, as the claim about scoring reads it. -/
def catMatched : CheckResult → ℕ
  | .patientDetails _ m => m
  | .dates _ valid => valid
  | .reports _ matching => matching
  | .lineItems caseChecklist payerChecklist => checklistMatched caseChecklist payerChecklist
  | .comprehensiveChecklist caseChecklist payerChecklist =>
      checklistMatched caseChecklist payerChecklist
  | .tariffs _ matched => matched

/-- The total-count of a category, as the claim about scoring reads it. -/
def catTotal : CheckResult → ℕ
  | .patientDetails d m => d + m
  | .dates total _ => total
  | .reports total _ => total
  | .lineItems caseChecklist payerChecklist =>
      if caseChecklist ≠ [] then caseChecklist.length else payerChecklist.length
  | .comprehensiveChecklist caseChecklist payerChecklist =>
      if caseChecklist ≠ [] then caseChecklist.length else payerChecklist.length
  | .tariffs total _ => total

/-- The dictionary returned by `calculate_accuracy_score`. -/
structure ScoreOutcome where
  accuracy_score : ℚ
  passed : Bool
  threshold : ℕ
deriving DecidableEq, Repr

/-- `QualityChecker.calculate_accuracy_score` (quality_checks.py:195-294).
The loop accumulates `weighted_score += score * weight` over all results,
then `accuracy_score = round(weighted_score, 2)` and
`passed = accuracy_score >= 80`.  (`ignore_discrepancies` is unused by the
function body and omitted.) -/
def calculate_accuracy_score (all_results : List CheckResult) : ScoreOutcome :=
  let weighted_score :=
    all_results.foldl (fun acc r => acc + categoryScore r * weightOf r.cat) 0
  let accuracy_score := pyRound2 weighted_score
  { accuracy_score := accuracy_score
    passed := decide (accuracy_score ≥ 80)
    threshold := 80 }

/-! ## `quality_checks.py` — `QualityChecker.check_tariffs` (lines 120–193)

Prices travel through `_safe_float`; numeric inputs pass through it
unchanged, so they are embedded directly as `Option ℚ`. -/

/-- A billed line item, restricted to the fields `check_tariffs` reads. -/
structure TariffItem where
  item_code : Option String
  code : Option String
  normalized_name : Option String
  item_name : Option String
  name : Option String
  price : Option ℚ
  total_price : Option ℚ
deriving DecidableEq, Repr

/-- One entry of the provided tariff dataset. -/
structure TariffEntry where
  item_code : Option String
  code : Option String
  item_name : Option String
  name : Option String
  tariff_price : Option ℚ
  price : Option ℚ
  amount : Option ℚ
deriving DecidableEq, Repr

/-- A raw dataset element: `check_tariffs` skips entries that are not
dictionaries. -/
inductive TariffEntryVal where
  | dict (e : TariffEntry)
  | notDict
deriving DecidableEq, Repr

/-- `(entry.get('item_code') or entry.get('code') or '').strip().lower()` -/
def tariffEntryCodeKey (e : TariffEntry) : String :=
  pyLower (pyStrip ((pyOrStr e.item_code e.code).getD ""))

/-- `(entry.get('item_name') or entry.get('name') or '').strip().lower()` -/
def tariffEntryNameKey (e : TariffEntry) : String :=
  pyLower (pyStrip ((pyOrStr e.item_name e.name).getD ""))

/-- The insertion sequence of `normalized_by_code` / `normalized_by_name`:
the `(key, entry)` pairs with a non-empty key, in dataset order. -/
def tariffPairs (key : TariffEntry → String) (tariffs_data : List TariffEntryVal) :
    List (String × TariffEntry) :=
  tariffs_data.foldl
    (fun acc ev =>
      match ev with
      | .dict e => if key e ≠ "" then acc ++ [(key e, e)] else acc
      | .notDict => acc)
    []

/-- Lookup in `normalized_by_code` (plain dict assignment: the last entry
written under a key wins). -/
def lookupByCode (tariffs_data : List TariffEntryVal) (k : String) : Option TariffEntry :=
  ((tariffPairs tariffEntryCodeKey tariffs_data).filter (fun p => p.1 = k)).getLast?.map
    (fun p => p.2)

/-- Lookup in `normalized_by_name` (built with `setdefault`: the first
entry written under a key wins). -/
def lookupByName (tariffs_data : List TariffEntryVal) (k : String) : Option TariffEntry :=
  ((tariffPairs tariffEntryNameKey tariffs_data).filter (fun p => p.1 = k)).head?.map
    (fun p => p.2)

/-- One element of the `tariff_checks` list; `note` is set (to
`'No tariff reference provided'`) exactly on the no-reference branch. -/
structure TariffCheckRow where
  item_code : Option String
  item_name : Option String
  billed_price : Option ℚ
  tariff_price : Option ℚ
  priceMatch : Bool
  difference : Option ℚ
  note : Option String
deriving DecidableEq, Repr

/-- The reference-entry selection for one line item: lookup by normalized
code first, then by normalized name. -/
def tariffEntryFor (tariffs_data : List TariffEntryVal) (item : TariffItem) :
    Option TariffEntry :=
  let item_code_raw := pyOrStr item.item_code item.code
  let item_name_raw := pyOrStr item.normalized_name (pyOrStr item.item_name item.name)
  let code_key := pyLower (pyStrip (item_code_raw.getD ""))
  let name_key := pyLower (pyStrip (item_name_raw.getD ""))
  let byCode := if code_key ≠ "" then lookupByCode tariffs_data code_key else none
  match byCode with
  | some e => some e
  | none => if name_key ≠ "" then lookupByName tariffs_data name_key else none

/-- The loop body of `check_tariffs` for one line item. -/
def checkTariffItem (tariffs_data : List TariffEntryVal) (item : TariffItem) : TariffCheckRow :=
  let item_code_raw := pyOrStr item.item_code item.code
  let item_name_raw := pyOrStr item.normalized_name (pyOrStr item.item_name item.name)
  let billed_price := pyOrNum item.price item.total_price
  let tariff_entry := tariffEntryFor tariffs_data item
  match tariff_entry with
  | some e =>
      let tariff_price := pyOrNum e.tariff_price (pyOrNum e.price e.amount)
      let price_match :=
        match tariff_price, billed_price with
        | none, _ => true
        | _, none => true
        | some t, some b => decide (|b - t| < 1/100)
      let difference :=
        match billed_price, tariff_price with
        | some b, some t => some (pyRound2 (b - t))
        | _, _ => none
      { item_code := item_code_raw, item_name := item_name_raw,
        billed_price := billed_price, tariff_price := tariff_price,
        priceMatch := price_match, difference := difference, note := none }
  | none =>
      { item_code := item_code_raw, item_name := item_name_raw,
        billed_price := billed_price, tariff_price := none,
        priceMatch := false, difference := none,
        note := some "No tariff reference provided" }

/-- The dictionary returned by `check_tariffs`. -/
structure TariffsOutcome where
  tariff_checks : List TariffCheckRow
  total_checked : ℕ
  matched : ℕ
deriving DecidableEq, Repr

/-- `QualityChecker.check_tariffs` (quality_checks.py:120-193); a `None`
dataset is already replaced by `[]` (`tariffs_data or []`). -/
def check_tariffs (line_items : List TariffItem) (tariffs_data : List TariffEntryVal) :
    TariffsOutcome :=
  let tariff_results := line_items.map (checkTariffItem tariffs_data)
  { tariff_checks := tariff_results
    total_checked := tariff_results.length
    matched := (tariff_results.filter (fun r => r.priceMatch)).length }

/-! ## `quality_checks.py` — `QualityChecker.evaluate_cashless_status`
(lines 447–578)

Documents are an ordered map from a document key to a value that may or
may not be a dictionary (non-dict values are skipped by both loops).
`_to_bool` has already been applied to the two boolean assessment fields
(a missing value coerces to `false`).  Evidence entries are heterogeneous
dictionaries echoing extracted fields; the embedding keeps only the
document label each entry is filed under, which is all the sort key and
the returned structure depend on for the verified property. -/

/-- `cashless_assessment` sub-dictionary fields read by the function. -/
structure CashlessAssessment where
  approval_stage : Option String
  approving_entity : Option String
  payer_type : Option String
  payer_name : Option String
  approval_reference : Option String
  approval_date : Option String
  has_final_or_discharge_approval : Bool
  is_cashless_claim : Bool
  evidence_excerpt : Option String
deriving DecidableEq, Repr

/-- `raw_references` list element fields read by the function. -/
structure RawReference where
  field : Option String
  value : Option String
  page_or_section : Option String
deriving DecidableEq, Repr

/-- One analyzed document, restricted to the sections
`evaluate_cashless_status` reads. -/
structure AnalyzedDoc where
  cashless_assessment : Option CashlessAssessment
  probable_document_type : Option String
  descriptor_confidence : Option String
  hospital_name : Option String
  payer_details_payer_type : Option String
  payer_details_payer_name : Option String
  approval_number : Option String
  referral_number : Option String
  claim_reference_numbers : List String
  approval_amount_breakup : List String
  total_approved_amount : Option ℚ
  raw_references : List RawReference
deriving DecidableEq, Repr

/-- A document value: non-dict values are skipped with a warning. -/
inductive DocVal where
  | dict (d : AnalyzedDoc)
  | notDict
deriving DecidableEq, Repr

def approvalTerms : List String :=
  ["approval", "authorisation", "authorization", "sanction", "clearance",
   "cashless", "referral", "settlement"]

def finalTerms : List String :=
  ["final", "discharge", "settlement", "clearance"]

/-- `any(term in s for term in terms)` -/
def containsAnyTerm (s : String) (terms : List String) : Bool :=
  terms.any (fun t => strContains s t)

/-- Mutable state threaded through the two document loops. -/
structure CashlessState where
  payer_type : Option String
  payer_name : Option String
  hospital_name : Option String
  approval_refs : List String
  has_final_approval : Bool
  cashless_flag : Bool
  evidence_docs : List String
deriving DecidableEq, Repr

def CashlessState.initial : CashlessState :=
  { payer_type := none, payer_name := none, hospital_name := none,
    approval_refs := [], has_final_approval := false, cashless_flag := false,
    evidence_docs := [] }

/-- First loop body (`for doc_key, doc in documents.items()`): reads the
`cashless_assessment` section. -/
def cashlessLoop1Step (st : CashlessState) (entry : String × DocVal) : CashlessState :=
  match entry.2 with
  | .notDict => st
  | .dict doc =>
    match doc.cashless_assessment with
    | none => st
    | some assessment =>
      let stage := pyLower (assessment.approval_stage.getD "")
      let stage_contains_approval := containsAnyTerm stage approvalTerms
      let stage_contains_final := containsAnyTerm stage finalTerms
      let has_final := st.has_final_approval
        || assessment.has_final_or_discharge_approval || stage_contains_final
      let cashless := st.cashless_flag
        || assessment.is_cashless_claim || stage_contains_approval
      let payer_type :=
        match st.payer_type with
        | some p => if p = "" then assessment.payer_type.filter (fun s => s ≠ "") else some p
        | none => assessment.payer_type.filter (fun s => s ≠ "")
      let payer_name0 :=
        match st.payer_name with
        | some p => if p = "" then assessment.payer_name.filter (fun s => s ≠ "") else some p
        | none => assessment.payer_name.filter (fun s => s ≠ "")
      let payer_name :=
        match payer_name0 with
        | some p => if p = "" then assessment.approving_entity.filter (fun s => s ≠ "") else some p
        | none => assessment.approving_entity.filter (fun s => s ≠ "")
      let refs :=
        match assessment.approval_reference with
        | some r => if r = "" then st.approval_refs else st.approval_refs ++ [r]
        | none => st.approval_refs
      { st with
        has_final_approval := has_final
        cashless_flag := cashless
        payer_type := payer_type
        payer_name := payer_name
        approval_refs := refs
        evidence_docs := st.evidence_docs ++ [entry.1] }

/-- Second loop body (`for doc in documents.values()`): descriptor,
hospital/payer details, claim information, financial summary and raw
references. -/
def cashlessLoop2Step (st : CashlessState) (entry : String × DocVal) : CashlessState :=
  match entry.2 with
  | .notDict => st
  | .dict doc =>
    let doc_type := pyLower (doc.probable_document_type.getD "")
    let st :=
      if doc_type ≠ "" then
        if containsAnyTerm doc_type approvalTerms then
          { st with
            cashless_flag := true
            has_final_approval := st.has_final_approval || containsAnyTerm doc_type finalTerms
            evidence_docs := st.evidence_docs ++ [doc.probable_document_type.getD ""] }
        else st
      else st
    let st :=
      { st with hospital_name :=
          match st.hospital_name with
          | some h => if h = "" then doc.hospital_name.filter (fun s => s ≠ "") else some h
          | none => doc.hospital_name.filter (fun s => s ≠ "") }
    let st :=
      { st with payer_type :=
          match st.payer_type with
          | some p => if p = "" then doc.payer_details_payer_type.filter (fun s => s ≠ "") else some p
          | none => doc.payer_details_payer_type.filter (fun s => s ≠ "") }
    let st :=
      { st with payer_name :=
          match st.payer_name with
          | some p => if p = "" then doc.payer_details_payer_name.filter (fun s => s ≠ "") else some p
          | none => doc.payer_details_payer_name.filter (fun s => s ≠ "") }
    let approval_number := pyOrStr doc.approval_number doc.referral_number
    let st :=
      match approval_number with
      | some n =>
          if n = "" then st
          else { st with approval_refs := st.approval_refs ++ [n], cashless_flag := true }
      | none => st
    let st :=
      if doc.claim_reference_numbers ≠ [] then
        { st with approval_refs := st.approval_refs ++ doc.claim_reference_numbers,
                  cashless_flag := true }
      else st
    let total_approved := doc.total_approved_amount
    let st :=
      if doc.approval_amount_breakup ≠ []
          || (match total_approved with | some t => decide (t > 0) | none => false) then
        { st with cashless_flag := true }
      else st
    doc.raw_references.foldl
      (fun st ref =>
        let value := pyLower (ref.value.getD "")
        if containsAnyTerm value approvalTerms then
          { st with
            cashless_flag := true
            has_final_approval := st.has_final_approval || containsAnyTerm value finalTerms
            evidence_docs := st.evidence_docs ++ [(ref.page_or_section.getD "unknown")] }
        else st)
      st

/-- Insertion sort used to embed Python `sorted` on strings. -/
def insertSorted (le : String → String → Bool) (x : String) : List String → List String
  | [] => [x]
  | y :: ys => if le x y then x :: y :: ys else y :: insertSorted le x ys

def sortStrings (le : String → String → Bool) : List String → List String
  | [] => []
  | x :: xs => insertSorted le x (sortStrings le xs)

/-- The dictionary returned by `evaluate_cashless_status`. -/
structure CashlessOutcome where
  status : String
  is_cashless : Bool
  has_final_or_discharge_approval : Bool
  payer_type : String
  payer_name : String
  hospital_name : String
  reason : String
  approval_references : List String
  evidence_docs : List String
deriving DecidableEq, Repr

/-- `QualityChecker.evaluate_cashless_status` (quality_checks.py:447-578).
After both loops, `approval_refs` is deduplicated (it is a Python `set`),
filtered of empty strings and sorted; then the terminal block
unconditionally sets `is_cashless = True` and `status = 'valid'` (comment
in the source: `ALWAYS assume cashless - no validation needed`) and
recomputes `has_final_approval` from the gathered evidence. -/
def evaluate_cashless_status (documents : List (String × DocVal)) : CashlessOutcome :=
  let st := documents.foldl cashlessLoop1Step CashlessState.initial
  let st := documents.foldl cashlessLoop2Step st
  let approval_refs :=
    sortStrings (fun a b => a ≤ b) ((st.approval_refs.dedup).filter (fun r => r ≠ ""))
  let has_final_approval :=
    if ¬ st.has_final_approval && st.cashless_flag && approval_refs ≠ [] then true
    else st.has_final_approval
  let _ := has_final_approval
  let is_cashless := true
  let status := "valid"
  let has_final_approval := approval_refs ≠ [] || st.cashless_flag
  let reason :=
    if approval_refs ≠ [] || st.cashless_flag then
      "Cashless claim processed. Approval letter details extracted."
    else "Cashless claim processed."
  { status := status
    is_cashless := is_cashless
    has_final_or_discharge_approval := has_final_approval
    payer_type := (st.payer_type.filter (fun s => s ≠ "")).getD "Unknown"
    payer_name := st.payer_name.getD ""
    hospital_name := st.hospital_name.getD ""
    reason := reason
    approval_references := approval_refs
    evidence_docs := sortStrings (fun a b => a ≤ b) st.evidence_docs }

/-! ## `quality_checks.py` — `QualityChecker._has_implants_in_procedures`
(lines 336–380) and `QualityChecker._generate_default_checklist`
(lines 1381–1486) -/

/-- One element of a `procedures_performed` / `procedures` list; the code
accepts a dictionary, a bare string, or anything else (which yields an
empty procedure name). -/
inductive ProcVal where
  | dict (procedure_name : Option String) (name : Option String)
  | str (s : String)
  | otherVal
deriving DecidableEq, Repr

/-- The lowered procedure name the implant scan works on. -/
def procNameLower : ProcVal → String
  | .dict procedure_name name => pyLower ((pyOrStr procedure_name name).getD "")
  | .str s => pyLower s
  | .otherVal => ""

/-- A case summary, restricted to the two procedure-list keys the implant
scan and the checklist generator read (`none`-like absent keys are `[]`). -/
structure CaseSummary where
  procedures_performed : List ProcVal
  procedures : List ProcVal
deriving DecidableEq, Repr

/-- A line item as read by the implant scan and the checklist generator. -/
structure ImplantLineItem where
  item_name : Option String
  category : Option String
  type : Option String
  report_enclosed : Bool
deriving DecidableEq, Repr

/-- The fixed implant keyword lexicon of `_has_implants_in_procedures`. -/
def implantKeywords : List String :=
  ["stent", "rod", "screw", "plate", "nail", "pin", "wire", "cage", "disc",
   "prosthesis", "prosthetic", "implant", "fixation", "replacement", "graft",
   "mesh", "pacemaker", "icd", "defibrillator", "coil", "clip", "valve",
   "hip replacement", "knee replacement", "shoulder replacement", "elbow replacement",
   "ankle replacement", "joint replacement", "total hip", "total knee",
   "dental implant", "dental crown", "dental bridge", "orthopedic implant",
   "cardiac implant", "vascular implant", "neurological implant"]

/-- `any(keyword in s for keyword in implant_keywords)` -/
def hasImplantKeyword (s : String) : Bool :=
  implantKeywords.any (fun k => strContains s k)

/-- `QualityChecker._has_implants_in_procedures` (quality_checks.py:336-380). -/
def has_implants_in_procedures (case_summary : CaseSummary)
    (line_items : List ImplantLineItem) : Bool :=
  let procedures := pyOrList case_summary.procedures_performed case_summary.procedures
  procedures.any (fun proc => hasImplantKeyword (procNameLower proc))
  || line_items.any (fun item =>
       let item_name := pyLower (item.item_name.getD "")
       let item_category := pyLower (item.category.getD "")
       let item_type := pyLower (item.type.getD "")
       hasImplantKeyword item_name
       || (strContains item_category "implant"
           && (item_category = "implant" || item_category = "medical implant"
               || item_category = "surgical implant"))
       || (item_type = "implant" || strContains item_type "implant"))

/-- Payer information, restricted to the `payer_type` key. -/
structure PayerInfo where
  payer_type : Option String
deriving DecidableEq, Repr

/-- One checklist entry produced by `_generate_default_checklist`. -/
structure ChecklistDoc where
  document_name : String
  required : Bool
  enclosed : Bool
  reason : String
  notes : String
deriving DecidableEq, Repr

/-- `payer_type in ['Govt Scheme', 'Corporate']` -/
def isGovtOrCorporate (payer_info : PayerInfo) : Bool :=
  let payer_type := payer_info.payer_type.getD "Unknown"
  payer_type = "Govt Scheme" || payer_type = "Corporate"

/-- `payer_type in ['TPA', 'Insurer']` -/
def isTpaOrInsurer (payer_info : PayerInfo) : Bool :=
  let payer_type := payer_info.payer_type.getD "Unknown"
  payer_type = "TPA" || payer_type = "Insurer"

/-- The six default documents required for all claims. -/
def defaultDocs : List ChecklistDoc :=
  [⟨"Cover Letter", true, false, "Standard requirement for all claims", ""⟩,
   ⟨"Final Bill", true, false, "Standard requirement for all claims", ""⟩,
   ⟨"Itemized Bill", true, false, "Standard requirement for all claims", ""⟩,
   ⟨"Discharge Summary", true, false, "Standard requirement for all claims", ""⟩,
   ⟨"Final Approval Letter", true, false, "Provided by payer",
     "Final approval/authorization letter from payer"⟩,
   ⟨"Patient ID Proof", true, false, "Aadhar card, PAN card, or any one ID card",
     "Any one: Aadhar card, PAN card"⟩]

/-- The surgery block: OT notes whenever any procedure was performed. -/
def surgeryDocs (case_summary : CaseSummary) : List ChecklistDoc :=
  let procedures := pyOrList case_summary.procedures_performed case_summary.procedures
  if procedures.length > 0 then
    [⟨"OT Notes/Operation Report", true, false,
      "Surgeries performed as per discharge summary",
      "OT notes or operation report required for surgery cases"⟩]
  else []

/-- The implant block, gated on `_has_implants_in_procedures`. -/
def implantDocs (case_summary : CaseSummary) (line_items : List ImplantLineItem)
    (payer_info : PayerInfo) : List ChecklistDoc :=
  if has_implants_in_procedures case_summary line_items then
    [⟨"Implant Vendor Invoice", true, false, "Implants used as per invoice",
      "Implant vendor invoice required"⟩,
     ⟨"Implant Sticker", true, false, "Implants used", "Implant sticker required"⟩,
     ⟨"Implant Certificate", true, false, "Implants used as per procedure",
      "Implant certificate required"⟩]
    ++ (if isGovtOrCorporate payer_info then
          [⟨"Implant Pouch", true, false, "Implants used AND govt/corporate payer",
            "Implant pouch required for govt/corporate payers"⟩]
        else [])
  else []

/-- The pre-authorization block for TPA / Insurer payers. -/
def preauthDocs (payer_info : PayerInfo) : List ChecklistDoc :=
  if isTpaOrInsurer payer_info then
    [⟨"Preauth Form", true, false, "TPA/Insurance payer requirement",
      "Pre-authorization form required for TPA and Insurance payers"⟩]
  else []

/-- The referral-letter block for Govt Scheme / Corporate payers. -/
def referralDocs (payer_info : PayerInfo) : List ChecklistDoc :=
  if isGovtOrCorporate payer_info then
    [⟨"Referral Letter", true, false, "Govt Scheme/Corporate payer requirement",
      "Referral letter required for Govt Scheme and Corporate payers"⟩]
  else []

/-- The employee-ID block for Corporate payers. -/
def employeeDocs (payer_info : PayerInfo) : List ChecklistDoc :=
  if payer_info.payer_type.getD "Unknown" = "Corporate" then
    [⟨"Employee ID Card", true, false, "Corporate payer requirement",
      "Employee ID card required for Corporate payers"⟩]
  else []

/-- The investigation-report block: one entry per `investigative` item. -/
def investigationDocs (line_items : List ImplantLineItem) : List ChecklistDoc :=
  (line_items.filter (fun item => pyLower (item.type.getD "") = "investigative")).map
    (fun inv_item =>
      let inv_name := inv_item.item_name.getD "Unknown Investigation"
      ⟨"Investigation Report - " ++ inv_name, true, inv_item.report_enclosed,
        "Investigation billed: " ++ inv_name, "Report required for " ++ inv_name⟩)

/-- `QualityChecker._generate_default_checklist` (quality_checks.py:1381-1486):
the sequential `checklist.append`/`extend` calls of the source, written as
the concatenation of the blocks in source order. -/
def generate_default_checklist (case_summary : CaseSummary)
    (line_items : List ImplantLineItem) (payer_info : PayerInfo) : List ChecklistDoc :=
  defaultDocs ++ surgeryDocs case_summary
    ++ implantDocs case_summary line_items payer_info
    ++ preauthDocs payer_info ++ referralDocs payer_info ++ employeeDocs payer_info
    ++ investigationDocs line_items

/-- Spec-side comparison predicate for the implant rule (from the spec
wording: implant checklist items appear only when an implant keyword from
the fixed lexicon matches a procedure name or a line item by name): true
exactly when an implant keyword occurs in some procedure name or in some
line-item name. -/
def specImplantKeywordMatch (case_summary : CaseSummary)
    (line_items : List ImplantLineItem) : Bool :=
  (pyOrList case_summary.procedures_performed case_summary.procedures).any
    (fun proc => hasImplantKeyword (procNameLower proc))
  || line_items.any (fun item => hasImplantKeyword (pyLower (item.item_name.getD "")))

/-! ## `gemini_service.py` — `GeminiService._classify_documents_sequential`
(lines 704–885)

The oracle call `self._generate_with_retry(content)` happens before the
`try:` block; every later step (reading `response.text`, stripping code
fences, `json.loads`, iterating the entries) is inside it, and the
`except` handler returns the all-in-`invoice` fallback map.
`_generate_with_retry` (lines 29–51) retries 429-style errors with
exponential backoff and re-raises on exhaustion, and re-raises any other
error immediately — so an oracle-call failure propagates out of
`_classify_documents_sequential` as an exception.  The embedding takes the
oracle interaction outcome as an explicit argument. -/

/-- The `file_index` value of one response entry: an int, a string that
parses as an int, a non-numeric string, a missing key, or some other
JSON value (each handled separately by the loop). -/
inductive FileIndexVal where
  | intVal (n : ℤ)
  | strInt (n : ℤ)
  | strBad
  | missing
  | otherVal
deriving DecidableEq, Repr

/-- One entry of the `documents` array of the classification response. -/
structure ClassifyDocEntry where
  file_index : FileIndexVal
  document_type : Option String
deriving DecidableEq, Repr

/-- Outcome of the oracle interaction in `_classify_documents_sequential`:
the call itself raising (after `_generate_with_retry` retries), a response
whose handling inside the `try` block raises (unparseable JSON, or
entries on which `.get` raises), a JSON list, a JSON dict (whose
`documents` key defaults to `[]`), or some other JSON value (handled
without raising, with `documents = []`). -/
inductive ClassifyOracleOutcome where
  | callFailure
  | unparseable
  | parsedList (docs : List ClassifyDocEntry)
  | parsedDict (docs : List ClassifyDocEntry)
  | parsedOtherShape
deriving DecidableEq, Repr

/-- The six-bucket category map. -/
structure ClassifiedDocs where
  discharge_summary : List String
  clinical : List String
  invoice : List String
  reports : List String
  approval : List String
  other : List String
deriving DecidableEq, Repr

def ClassifiedDocs.empty : ClassifiedDocs :=
  ⟨[], [], [], [], [], []⟩

/-- Total number of file references across the six buckets. -/
def ClassifiedDocs.totalCount (c : ClassifiedDocs) : ℕ :=
  c.discharge_summary.length + c.clinical.length + c.invoice.length
    + c.reports.length + c.approval.length + c.other.length

/-- Number of occurrences of one file path across the six buckets. -/
def ClassifiedDocs.countPath (c : ClassifiedDocs) (p : String) : ℕ :=
  c.discharge_summary.count p + c.clinical.count p + c.invoice.count p
    + c.reports.count p + c.approval.count p + c.other.count p

/-- `classified[doc_type].append(file_path)` with the unknown-type
fallback to `other`. -/
def addToBucket (c : ClassifiedDocs) (doc_type : String) (p : String) : ClassifiedDocs :=
  if doc_type = "discharge_summary" then { c with discharge_summary := c.discharge_summary ++ [p] }
  else if doc_type = "clinical" then { c with clinical := c.clinical ++ [p] }
  else if doc_type = "invoice" then { c with invoice := c.invoice ++ [p] }
  else if doc_type = "reports" then { c with reports := c.reports ++ [p] }
  else if doc_type = "approval" then { c with approval := c.approval ++ [p] }
  else if doc_type = "other" then { c with other := c.other ++ [p] }
  else { c with other := c.other ++ [p] }

/-- The string-to-int conversion attempt and the `None`/non-int guard
applied to `file_index` (entries resolving to `none` are skipped). -/
def resolveFileIndex : FileIndexVal → Option ℤ
  | .intVal n => some n
  | .strInt n => some n
  | .strBad => none
  | .missing => none
  | .otherVal => none

/-- The body of the `for doc in documents` loop, threading the category
map and the set of classified indices. -/
def classifyLoopStep (file_paths : List String) (pathExists : String → Bool)
    (st : ClassifiedDocs × List ℤ) (doc : ClassifyDocEntry) : ClassifiedDocs × List ℤ :=
  let doc_type := doc.document_type.getD "other"
  match resolveFileIndex doc.file_index with
  | none => st
  | some file_index =>
    if 0 ≤ file_index ∧ file_index < (file_paths.length : ℤ) then
      let file_path := file_paths.getD file_index.toNat ""
      let indices := st.2 ++ [file_index]
      if pathExists file_path then
        (addToBucket st.1 doc_type file_path, indices)
      else
        (st.1, indices)
    else st

/-- The final sweep: every index the loop did not classify goes to
`other` (when its file still exists). -/
def addUnclassified (file_paths : List String) (pathExists : String → Bool)
    (st : ClassifiedDocs × List ℤ) : ClassifiedDocs :=
  (file_paths.enum.foldl
    (fun c (pi : ℕ × String) =>
      if (pi.1 : ℤ) ∈ st.2 then c
      else if pathExists pi.2 then { c with other := c.other ++ [pi.2] }
      else c)
    st.1)

/-- The invoice-bucket fallback map returned by the `except` handler. -/
def classifyFallback (file_paths : List String) : ClassifiedDocs :=
  { discharge_summary := [], clinical := [], invoice := file_paths,
    reports := [], approval := [], other := [] }

/-- `GeminiService._classify_documents_sequential`
(gemini_service.py:704-885).  `.error ()` models the exception
propagating out of the function. -/
def classify_documents_sequential (file_paths : List String)
    (pathExists : String → Bool) (outcome : ClassifyOracleOutcome) :
    Except Unit ClassifiedDocs :=
  match outcome with
  | .callFailure => .error ()
  | .unparseable => .ok (classifyFallback file_paths)
  | .parsedList docs =>
      .ok (addUnclassified file_paths pathExists
        (docs.foldl (classifyLoopStep file_paths pathExists) (ClassifiedDocs.empty, [])))
  | .parsedDict docs =>
      .ok (addUnclassified file_paths pathExists
        (docs.foldl (classifyLoopStep file_paths pathExists) (ClassifiedDocs.empty, [])))
  | .parsedOtherShape =>
      .ok (addUnclassified file_paths pathExists (ClassifiedDocs.empty, []))

/-! ## `gemini_service.py` — approved-amount extraction in
`GeminiService.analyze_claim_sequential` (lines 1428–1437) -/

/-- The four synonymous amount fields of the approval-verification result. -/
structure ApprovalAmounts where
  approved_amount : Option ℚ
  authorized_amount : Option ℚ
  sanctioned_amount : Option ℚ
  admissible_amount : Option ℚ
deriving DecidableEq, Repr

/-- The `or`-chain `approved or authorized or sanctioned or admissible or
0.0` followed by `float(x) if x else 0.0`, i.e. the approved amount stored
into `payer_info['approved_amount']`. -/
def extract_approved_amount (a : ApprovalAmounts) : ℚ :=
  let approved_amount :=
    (pyOrNum a.approved_amount
      (pyOrNum a.authorized_amount
        (pyOrNum a.sanctioned_amount a.admissible_amount))).getD 0
  if approved_amount = 0 then 0 else approved_amount

/-- Spec-side comparison value: the maximum of the synonymous amount
fields that are present (from the spec wording `amount defaults to the
maximum of several synonymous amount fields`). -/
def specMaxAmount (a : ApprovalAmounts) : ℚ :=
  ([a.approved_amount, a.authorized_amount, a.sanctioned_amount,
    a.admissible_amount].filterMap id).foldl max 0

/-- Spec-side value for the amended claim: the first field, in the fixed
order approved / authorized / sanctioned / admissible, that is present and
positive; `0` when there is none. -/
def firstPositiveAmount (a : ApprovalAmounts) : ℚ :=
  match a.approved_amount with
  | some x => if x > 0 then x else firstPositiveAmountRest1 a
  | none => firstPositiveAmountRest1 a
where
  firstPositiveAmountRest1 (a : ApprovalAmounts) : ℚ :=
    match a.authorized_amount with
    | some x => if x > 0 then x else firstPositiveAmountRest2 a
    | none => firstPositiveAmountRest2 a
  firstPositiveAmountRest2 (a : ApprovalAmounts) : ℚ :=
    match a.sanctioned_amount with
    | some x => if x > 0 then x else firstPositiveAmountRest3 a
    | none => firstPositiveAmountRest3 a
  firstPositiveAmountRest3 (a : ApprovalAmounts) : ℚ :=
    match a.admissible_amount with
    | some x => if x > 0 then x else 0
    | none => 0

/-! ## `app.py` — final-score computation in `process_claim_async`
(lines 747–766 and 793–802)

`sequential_results` is assigned unconditionally right after the document
analysis step (app.py:566), so the `if 'sequential_results' in locals():`
test at app.py:748 is true on every run of this code path; the
`calculate_accuracy_score` branch is the dead `else` arm.  The same
`final_score` dictionary is then both stored
(`firestore_service.update_claim` / `add_claim_result('final_score', ...)`)
and emitted in the `completed` progress event. -/

/-- Whether `'sequential_results' in locals()` holds at app.py:748: the
variable is assigned unconditionally at app.py:566. -/
def sequentialResultsAvailable : Bool := true

/-- `QualityChecker.calculate_accuracy_score` applied to the fallback
result list, as called on the `else` arm (app.py:769-773). -/
def fallbackWeightedScore (fallback_results : List CheckResult) : ScoreOutcome :=
  calculate_accuracy_score fallback_results

/-- The Step-8 final-score computation of `process_claim_async`
(app.py:747-766): on the sequential arm,
`total_issues = len(discrepancies) + len(possible_issues)` and
`accuracy_score = max(0, 100 - total_issues * 5)`, with
`passed = accuracy_score >= 80`.  The discrepancy / possible-issue
payloads are only counted, so their element types are parameters. -/
def process_claim_final_score {α β : Type} (discrepancies : List α)
    (possible_issues : List β) (fallback_results : List CheckResult) : ScoreOutcome :=
  if sequentialResultsAvailable then
    let total_issues := discrepancies.length + possible_issues.length
    let accuracy_score : ℤ := max 0 (100 - (total_issues : ℤ) * 5)
    { accuracy_score := (accuracy_score : ℚ)
      passed := decide ((accuracy_score : ℚ) ≥ 80)
      threshold := 80 }
  else fallbackWeightedScore fallback_results

/-! ## Date-window validation (`QualityChecker.check_dates`,
quality_checks.py:42-63, delegating to `GeminiService.check_dates`,
gemini_service.py:324-384)

Modelled from the spec: the comparison of each line-item service date
with the inclusive approval window is performed by the extraction oracle
following the rules section of the prompt built in
`GeminiService.check_dates` (a date is invalid iff it is before the
window start or after the window end, even by one day; a missing or
unparseable date is reported separately as missing); the repository code
only builds that prompt and repackages the returned three lists.  Dates
are embedded as day numbers, so `d - 1` is one calendar day earlier. -/

/-- One line item as seen by the date check. -/
structure DateLineItem where
  item_name : String
  date_of_service : Option ℤ
deriving DecidableEq, Repr

/-- Classification of one service date against the approval window. -/
inductive DateStatus where
  | valid
  | invalid
  | missingDate
deriving DecidableEq, Repr

/-- Modelled from the spec: the per-item rule of the date-validation task
(`A date is INVALID if it is before the approval start date OR after the
approval end date`; `A date is MISSING if the date_of_service field is
null, empty, or invalid format`; otherwise valid). -/
def classifyServiceDate (approvalFrom approvalTo : ℤ) (date_of_service : Option ℤ) :
    DateStatus :=
  match date_of_service with
  | none => .missingDate
  | some d => if d < approvalFrom || d > approvalTo then .invalid else .valid

/-- The three lists of the date-check result (`valid_items`,
`invalid_items`, `missing_dates`), as `QualityChecker.check_dates`
repackages them. -/
structure DatesOutcome where
  valid_items : List DateLineItem
  invalid_items : List DateLineItem
  missing_dates : List DateLineItem
  total_items : ℕ
  valid_count : ℕ
  invalid_count : ℕ
deriving DecidableEq, Repr

/-- Modelled from the spec: `QualityChecker.check_dates` with the oracle
behaving per its prompt — each line item lands in exactly the list its
date classification selects, and the counts are the list lengths. -/
def check_dates_spec (line_items : List DateLineItem)
    (approvalFrom approvalTo : ℤ) : DatesOutcome :=
  let valid_items := line_items.filter
    (fun i => classifyServiceDate approvalFrom approvalTo i.date_of_service == .valid)
  let invalid_items := line_items.filter
    (fun i => classifyServiceDate approvalFrom approvalTo i.date_of_service == .invalid)
  let missing_dates := line_items.filter
    (fun i => classifyServiceDate approvalFrom approvalTo i.date_of_service == .missingDate)
  { valid_items := valid_items
    invalid_items := invalid_items
    missing_dates := missing_dates
    total_items := line_items.length
    valid_count := valid_items.length
    invalid_count := invalid_items.length }

/-! ## Concrete test inputs used by the claim theorems -/

/-- Five results, one per weighted category, each scoring 100. -/
def allFive100 : List CheckResult :=
  [.patientDetails 0 5, .dates 2 2, .reports 1 1,
   .lineItems [⟨false, false, none, none⟩] [], .tariffs 1 1]

/-- Same as `allFive100` but with the patient-details category at score 0. -/
def patientZero : List CheckResult :=
  [.patientDetails 1 0, .dates 2 2, .reports 1 1,
   .lineItems [⟨false, false, none, none⟩] [], .tariffs 1 1]

/-- Four results (tariff checking disabled), each scoring 100. -/
def fourCats100 : List CheckResult :=
  [.patientDetails 0 1, .dates 1 1, .reports 1 1,
   .lineItems [⟨false, false, none, none⟩] []]

/-- Approval amounts with `approved_amount` 100 and `authorized_amount` 500. -/
def amountsCex : ApprovalAmounts := ⟨some 100, some 500, none, none⟩

/-- An oracle classification response repeating the valid index 0 twice. -/
def dupResponse : ClassifyOracleOutcome :=
  .parsedDict [⟨.intVal 0, some "invoice"⟩, ⟨.intVal 0, some "invoice"⟩]

/-- A line item (name only, no code, no price) with no tariff reference. -/
def tariffItemCex : TariffItem := ⟨none, none, none, some "x", none, none, none⟩

/-- A line item whose name matches no implant keyword, whose category is
exactly `implant`, and whose type is empty. -/
def implantCexItem : ImplantLineItem := ⟨some "kit", some "implant", some "", false⟩

/-- A case summary with no procedures. -/
def noProcs : CaseSummary := ⟨[], []⟩

/-- A TPA payer. -/
def tpaPayer : PayerInfo := ⟨some "TPA"⟩

/-! ## Helper lemmas -/

theorem pyFloor_eq_floor (q : ℚ) : pyFloor q = ⌊q⌋ :=
  (Rat.floor_def).symm

theorem pyRound2_intCast (n : ℤ) : pyRound2 ((n : ℚ)) = (n : ℚ) := by
  have hy : (100 : ℚ) * (n : ℚ) = ((100 * n : ℤ) : ℚ) := by push_cast; ring
  have hfl : pyFloor ((100 : ℚ) * (n : ℚ)) = 100 * n := by
    rw [pyFloor_eq_floor, hy, Int.floor_intCast]
  simp only [pyRound2, hfl]
  rw [hy]
  simp only [sub_self]
  norm_num

theorem foldl_add_eq_sum {α : Type} (f : α → ℚ) (l : List α) (acc : ℚ) :
    l.foldl (fun a r => a + f r) acc = acc + (l.map f).sum := by
  induction l generalizing acc with
  | nil => simp
  | cons x xs ih => simp [ih, add_assoc]

theorem categoryScore_eq_ratio (r : CheckResult) :
    categoryScore r =
      if catTotal r = 0 then 100 else (catMatched r : ℚ) / (catTotal r : ℚ) * 100 := by
  have hgen : ∀ (caseC : List CaseItem) (payerC : List PayerItem),
      checklistScore caseC payerC =
        if (if caseC ≠ [] then caseC.length else payerC.length) = 0 then 100
        else ((checklistMatched caseC payerC : ℚ) /
          ((if caseC ≠ [] then caseC.length else payerC.length) : ℚ) * 100) := by
    intro caseC payerC
    by_cases hc : caseC = []
    · subst hc
      by_cases hp : payerC = []
      · subst hp
        simp [checklistScore, checklistMatched]
      · have hlen : payerC.length ≠ 0 := fun h0 => hp (List.length_eq_zero.mp h0)
        have hpos : 0 < payerC.length := Nat.pos_of_ne_zero hlen
        simp [checklistScore, checklistMatched, hp, hlen, hpos]
    · have hlen : caseC.length ≠ 0 := fun h0 => hc (List.length_eq_zero.mp h0)
      have hpos : 0 < caseC.length := Nat.pos_of_ne_zero hlen
      simp [checklistScore, checklistMatched, hc, hlen, hpos]
  cases r with
  | patientDetails d m =>
      by_cases h : d + m = 0
      · simp [categoryScore, catTotal, h]
      · have hpos : 0 < d + m := Nat.pos_of_ne_zero h
        simp only [categoryScore, catMatched, catTotal, gt_iff_lt, if_pos hpos, if_neg h]
  | dates t v =>
      by_cases h : t = 0
      · simp [categoryScore, catTotal, h]
      · have hpos : 0 < t := Nat.pos_of_ne_zero h
        simp [categoryScore, catMatched, catTotal, h, hpos]
  | reports t m =>
      by_cases h : t = 0
      · simp [categoryScore, catTotal, h]
      · have hpos : 0 < t := Nat.pos_of_ne_zero h
        simp [categoryScore, catMatched, catTotal, h, hpos]
  | lineItems caseC payerC => simpa [categoryScore, catMatched, catTotal] using hgen caseC payerC
  | comprehensiveChecklist caseC payerC =>
      simpa [categoryScore, catMatched, catTotal] using hgen caseC payerC
  | tariffs t m =>
      by_cases h : t = 0
      · simp [categoryScore, catTotal, h]
      · have hpos : 0 < t := Nat.pos_of_ne_zero h
        simp [categoryScore, catMatched, catTotal, h, hpos]

theorem score_eval_allFive100 : calculate_accuracy_score allFive100 = ⟨100, true, 80⟩ := by
  have h : (calculate_accuracy_score allFive100).accuracy_score = 100 := by
    simp only [calculate_accuracy_score, allFive100, categoryScore, checklistScore,
      caseItemValid, weightOf, CheckResult.cat, List.foldl, List.filter, List.length]
    norm_num
    rw [show (100 : ℚ) = ((100 : ℤ) : ℚ) by norm_num, pyRound2_intCast]
  have hp : (calculate_accuracy_score allFive100).passed = true := by
    simp only [calculate_accuracy_score] at h ⊢
    rw [h]
    norm_num
  have ht : (calculate_accuracy_score allFive100).threshold = 80 := rfl
  cases hr : calculate_accuracy_score allFive100
  rw [hr] at h hp ht
  simp_all

theorem score_eval_patientZero : calculate_accuracy_score patientZero = ⟨75, false, 80⟩ := by
  have h : (calculate_accuracy_score patientZero).accuracy_score = 75 := by
    simp only [calculate_accuracy_score, patientZero, categoryScore, checklistScore,
      caseItemValid, weightOf, CheckResult.cat, List.foldl, List.filter, List.length]
    norm_num
    rw [show (75 : ℚ) = ((75 : ℤ) : ℚ) by norm_num, pyRound2_intCast]
  have hp : (calculate_accuracy_score patientZero).passed = false := by
    simp only [calculate_accuracy_score] at h ⊢
    rw [h]
    norm_num
  have ht : (calculate_accuracy_score patientZero).threshold = 80 := rfl
  cases hr : calculate_accuracy_score patientZero
  rw [hr] at h hp ht
  simp_all

theorem length_filter_lt_of_mem {α : Type} (p : α → Bool) (l : List α) (x : α)
    (hx : x ∈ l) (hpx : p x = false) :
    (l.filter p).length < l.length := by
  induction l with
  | nil => cases hx
  | cons a as ih =>
    rcases List.mem_cons.mp hx with rfl | hmem
    · rw [List.filter_cons, hpx]
      simp only [List.length_cons]
      exact Nat.lt_succ_of_le (List.length_filter_le _ _)
    · rw [List.filter_cons]
      cases hpa : p a
      · simp only [cond_false, List.length_cons]
        exact Nat.lt_succ_of_lt (ih hmem)
      · simp only [cond_true, List.length_cons]
        exact Nat.succ_lt_succ (ih hmem)

theorem inv_report_name_ne (s t : String) (ht : t.length < 23) :
    ¬ ("Investigation Report - " ++ s = t) := by
  intro he
  have hl : ("Investigation Report - " ++ s).length = t.length := congrArg String.length he
  rw [String.length_append] at hl
  have h23 : ("Investigation Report - ").length = 23 := by decide
  omega

theorem cat_exact_contains (s : String)
    (h : s = "implant" ∨ s = "medical implant" ∨ s = "surgical implant") :
    strContains s "implant" = true := by
  rcases h with rfl | rfl | rfl <;> decide

theorem has_implants_decomposition (cs : CaseSummary) (items : List ImplantLineItem) :
    has_implants_in_procedures cs items = true ↔
      (specImplantKeywordMatch cs items = true
        ∨ ∃ item ∈ items,
            pyLower (item.category.getD "") = "implant"
            ∨ pyLower (item.category.getD "") = "medical implant"
            ∨ pyLower (item.category.getD "") = "surgical implant"
            ∨ pyLower (item.type.getD "") = "implant"
            ∨ strContains (pyLower (item.type.getD "")) "implant" = true) := by
  simp only [has_implants_in_procedures, specImplantKeywordMatch, List.any_eq_true,
    Bool.or_eq_true, Bool.and_eq_true, decide_eq_true_eq]
  constructor
  · rintro (hproc | ⟨x, hx, hcase⟩)
    · exact Or.inl (Or.inl hproc)
    · rcases hcase with (hname | ⟨hc, (hc1 | hc2) | hc3⟩) | (ht1 | ht2)
      · exact Or.inl (Or.inr ⟨x, hx, hname⟩)
      · exact Or.inr ⟨x, hx, Or.inl hc1⟩
      · exact Or.inr ⟨x, hx, Or.inr (Or.inl hc2)⟩
      · exact Or.inr ⟨x, hx, Or.inr (Or.inr (Or.inl hc3))⟩
      · exact Or.inr ⟨x, hx, Or.inr (Or.inr (Or.inr (Or.inl ht1)))⟩
      · exact Or.inr ⟨x, hx, Or.inr (Or.inr (Or.inr (Or.inr ht2)))⟩
  · rintro ((hproc | ⟨x, hx, hname⟩) | ⟨x, hx, h1 | h2 | h3 | h4 | h5⟩)
    · exact Or.inl hproc
    · exact Or.inr ⟨x, hx, Or.inl (Or.inl hname)⟩
    · exact Or.inr ⟨x, hx, Or.inl (Or.inr
        ⟨cat_exact_contains _ (Or.inl h1), Or.inl (Or.inl h1)⟩)⟩
    · exact Or.inr ⟨x, hx, Or.inl (Or.inr
        ⟨cat_exact_contains _ (Or.inr (Or.inl h2)), Or.inl (Or.inr h2)⟩)⟩
    · exact Or.inr ⟨x, hx, Or.inl (Or.inr
        ⟨cat_exact_contains _ (Or.inr (Or.inr h3)), Or.inr h3⟩)⟩
    · exact Or.inr ⟨x, hx, Or.inr (Or.inl h4)⟩
    · exact Or.inr ⟨x, hx, Or.inr (Or.inr h5)⟩

theorem c8_mem_vendor (cs : CaseSummary) (items : List ImplantLineItem) (p : PayerInfo) :
    "Implant Vendor Invoice" ∈ (generate_default_checklist cs items p).map
        (fun d => d.document_name)
      ↔ has_implants_in_procedures cs items = true := by
  have hinv : ∀ s, ¬ ("Investigation Report - " ++ s = "Implant Vendor Invoice") :=
    fun s => inv_report_name_ne s _ (by decide)
  simp only [generate_default_checklist, List.map_append, List.mem_append,
    defaultDocs, surgeryDocs, implantDocs, preauthDocs, referralDocs, employeeDocs,
    investigationDocs]
  by_cases hs : (pyOrList cs.procedures_performed cs.procedures).length > 0 <;>
    by_cases hi : has_implants_in_procedures cs items = true <;>
    by_cases hg : isGovtOrCorporate p = true <;>
    by_cases ht : isTpaOrInsurer p = true <;>
    by_cases he : p.payer_type.getD "Unknown" = "Corporate" <;>
    simp_all [List.mem_map, hinv]

theorem c8_mem_sticker (cs : CaseSummary) (items : List ImplantLineItem) (p : PayerInfo) :
    "Implant Sticker" ∈ (generate_default_checklist cs items p).map
        (fun d => d.document_name)
      ↔ has_implants_in_procedures cs items = true := by
  have hinv : ∀ s, ¬ ("Investigation Report - " ++ s = "Implant Sticker") :=
    fun s => inv_report_name_ne s _ (by decide)
  simp only [generate_default_checklist, List.map_append, List.mem_append,
    defaultDocs, surgeryDocs, implantDocs, preauthDocs, referralDocs, employeeDocs,
    investigationDocs]
  by_cases hs : (pyOrList cs.procedures_performed cs.procedures).length > 0 <;>
    by_cases hi : has_implants_in_procedures cs items = true <;>
    by_cases hg : isGovtOrCorporate p = true <;>
    by_cases ht : isTpaOrInsurer p = true <;>
    by_cases he : p.payer_type.getD "Unknown" = "Corporate" <;>
    simp_all [List.mem_map, hinv]

theorem c8_mem_certificate (cs : CaseSummary) (items : List ImplantLineItem)
    (p : PayerInfo) :
    "Implant Certificate" ∈ (generate_default_checklist cs items p).map
        (fun d => d.document_name)
      ↔ has_implants_in_procedures cs items = true := by
  have hinv : ∀ s, ¬ ("Investigation Report - " ++ s = "Implant Certificate") :=
    fun s => inv_report_name_ne s _ (by decide)
  simp only [generate_default_checklist, List.map_append, List.mem_append,
    defaultDocs, surgeryDocs, implantDocs, preauthDocs, referralDocs, employeeDocs,
    investigationDocs]
  by_cases hs : (pyOrList cs.procedures_performed cs.procedures).length > 0 <;>
    by_cases hi : has_implants_in_procedures cs items = true <;>
    by_cases hg : isGovtOrCorporate p = true <;>
    by_cases ht : isTpaOrInsurer p = true <;>
    by_cases he : p.payer_type.getD "Unknown" = "Corporate" <;>
    simp_all [List.mem_map, hinv]

theorem c8_mem_pouch (cs : CaseSummary) (items : List ImplantLineItem) (p : PayerInfo) :
    "Implant Pouch" ∈ (generate_default_checklist cs items p).map
        (fun d => d.document_name)
      ↔ (has_implants_in_procedures cs items = true ∧ isGovtOrCorporate p = true) := by
  have hinv : ∀ s, ¬ ("Investigation Report - " ++ s = "Implant Pouch") :=
    fun s => inv_report_name_ne s _ (by decide)
  simp only [generate_default_checklist, List.map_append, List.mem_append,
    defaultDocs, surgeryDocs, implantDocs, preauthDocs, referralDocs, employeeDocs,
    investigationDocs]
  by_cases hs : (pyOrList cs.procedures_performed cs.procedures).length > 0 <;>
    by_cases hi : has_implants_in_procedures cs items = true <;>
    by_cases hg : isGovtOrCorporate p = true <;>
    by_cases ht : isTpaOrInsurer p = true <;>
    by_cases he : p.payer_type.getD "Unknown" = "Corporate" <;>
    simp_all [List.mem_map, hinv]

/-! ## Claim theorems -/

/-- Claim C1: for every result list with at most one result per category
(drawn from the five weighted categories), `calculate_accuracy_score`
gives each present category the score `matched / total * 100` (exactly 100
when `total = 0`), computes the final score as
`round(Σ weight_i * score_i, 2)` with weights 0.25 / 0.20 / 0.15 / 0.30 /
0.10, and passes exactly at 80 or above; in particular five categories at
100 give exactly 100.00 with `passed`, and patient-details at 0 with the
rest at 100 gives 75.0 without `passed`. -/
theorem claims_C1_weighted_scoring
    (rs : List CheckResult)
    (hone : (rs.map CheckResult.cat).Nodup)
    (hfive : ∀ r ∈ rs, r.cat ≠ Cat.comprehensiveChecklist) :
    (∀ r ∈ rs, categoryScore r =
        if catTotal r = 0 then 100 else (catMatched r : ℚ) / (catTotal r : ℚ) * 100)
    ∧ (calculate_accuracy_score rs).accuracy_score
        = pyRound2 ((rs.map (fun r => weightOf r.cat * categoryScore r)).sum)
    ∧ weightOf Cat.patientDetails = 25/100
    ∧ weightOf Cat.dates = 20/100
    ∧ weightOf Cat.reports = 15/100
    ∧ weightOf Cat.lineItems = 30/100
    ∧ weightOf Cat.tariffs = 10/100
    ∧ ((calculate_accuracy_score rs).passed = true
        ↔ (calculate_accuracy_score rs).accuracy_score ≥ 80)
    ∧ calculate_accuracy_score allFive100 = ⟨100, true, 80⟩
    ∧ calculate_accuracy_score patientZero = ⟨75, false, 80⟩ := by
  refine ⟨fun r _ => categoryScore_eq_ratio r, ?_, rfl, rfl, rfl, rfl, rfl, ?_,
    score_eval_allFive100, score_eval_patientZero⟩
  · simp only [calculate_accuracy_score]
    rw [foldl_add_eq_sum (fun r => categoryScore r * weightOf r.cat) rs 0, zero_add]
    congr 1
    congr 1
    exact List.map_congr_left (fun r _ => mul_comm _ _)
  · simp only [calculate_accuracy_score, decide_eq_true_eq]

/-- Claim C1 witness: the theorem applied to the five-category list with
every category at 100. -/
theorem claims_C1_weighted_scoring_witness :
    ((allFive100.map CheckResult.cat).Nodup
      ∧ ∀ r ∈ allFive100, r.cat ≠ Cat.comprehensiveChecklist)
    ∧ calculate_accuracy_score allFive100 = ⟨100, true, 80⟩ :=
  ⟨⟨by decide, by decide⟩,
    (claims_C1_weighted_scoring allFive100 (by decide) (by decide)).2.2.2.2.2.2.2.2.1⟩

/-- Claim C2: with two existing input files and an oracle response that
repeats the valid index 0 twice, `_classify_documents_sequential` returns
three file references — file 0 twice in `invoice` and file 1 once in
`other` — violating the exactly-N / no-duplicate contract the claim
states. -/
theorem claims_C2_duplicate_index_evaluation :
    classify_documents_sequential ["f0", "f1"] (fun _ => true) dupResponse
      = .ok ⟨[], [], ["f0", "f0"], [], [], ["f1"]⟩
    ∧ (ClassifiedDocs.mk [] [] ["f0", "f0"] [] [] ["f1"]).totalCount = 3
    ∧ (ClassifiedDocs.mk [] [] ["f0", "f0"] [] [] ["f1"]).countPath "f0" = 2
    ∧ ["f0", "f1"].length = 2 :=
  ⟨rfl, by decide, by decide, by decide⟩

/-- Claim C3 counterexample: with tariff checking disabled and the four
remaining categories all at score 100, the final accuracy score is 90.0,
not 100 — the weights are not renormalized. -/
theorem claims_C3_renormalization_counterexample :
    (∀ r ∈ fourCats100, categoryScore r = 100)
    ∧ (∀ r ∈ fourCats100, r.cat ≠ Cat.tariffs)
    ∧ (calculate_accuracy_score fourCats100).accuracy_score = 90
    ∧ (calculate_accuracy_score fourCats100).accuracy_score ≠ 100 := by
  have hall : ∀ r ∈ fourCats100, categoryScore r = 100 := by
    intro r hr
    fin_cases hr <;> norm_num [categoryScore, checklistScore, caseItemValid]
  have h90 : (calculate_accuracy_score fourCats100).accuracy_score = 90 := by
    simp only [calculate_accuracy_score, fourCats100, categoryScore, checklistScore,
      caseItemValid, weightOf, CheckResult.cat, List.foldl, List.filter, List.length]
    norm_num
    rw [show (90 : ℚ) = ((90 : ℤ) : ℚ) by norm_num, pyRound2_intCast]
  refine ⟨hall, ?_, h90, ?_⟩
  · intro r hr
    fin_cases hr <;> simp [CheckResult.cat]
  · rw [h90]
    norm_num

/-- Claim C3 (amended): when no tariffs result is supplied, the tariff
weight is simply dropped (no renormalization): a patient-details, dates,
reports and line-items result each scoring 100 yield a final accuracy
score of exactly 90.0, which still passes the 80 threshold. -/
theorem claims_C3_no_renormalization (p d r l : CheckResult)
    (hp : p.cat = Cat.patientDetails) (hd : d.cat = Cat.dates)
    (hr : r.cat = Cat.reports) (hl : l.cat = Cat.lineItems)
    (hsp : categoryScore p = 100) (hsd : categoryScore d = 100)
    (hsr : categoryScore r = 100) (hsl : categoryScore l = 100) :
    calculate_accuracy_score [p, d, r, l] = ⟨90, true, 80⟩ := by
  have h90 : (calculate_accuracy_score [p, d, r, l]).accuracy_score = 90 := by
    simp only [calculate_accuracy_score, List.foldl, hp, hd, hr, hl, hsp, hsd, hsr, hsl,
      weightOf]
    norm_num
    rw [show (90 : ℚ) = ((90 : ℤ) : ℚ) by norm_num, pyRound2_intCast]
  have hpass : (calculate_accuracy_score [p, d, r, l]).passed = true := by
    simp only [calculate_accuracy_score] at h90 ⊢
    rw [h90]
    norm_num
  have ht : (calculate_accuracy_score [p, d, r, l]).threshold = 80 := rfl
  cases hq : calculate_accuracy_score [p, d, r, l]
  rw [hq] at h90 hpass ht
  simp_all

/-- Claim C3 witness: the amended theorem applied to a concrete
four-category list with every category at 100. -/
theorem claims_C3_no_renormalization_witness :
    ((CheckResult.patientDetails 0 1).cat = Cat.patientDetails
      ∧ categoryScore (.patientDetails 0 1) = 100)
    ∧ calculate_accuracy_score fourCats100 = ⟨90, true, 80⟩ :=
  ⟨⟨by decide, by norm_num [categoryScore]⟩,
    claims_C3_no_renormalization _ _ _ _ rfl rfl rfl rfl
      (by norm_num [categoryScore]) (by norm_num [categoryScore])
      (by norm_num [categoryScore])
      (by norm_num [categoryScore, checklistScore, caseItemValid])⟩

/-- Claim C4: on the sequential-analysis path (always taken, since
`sequential_results` is assigned unconditionally), the final stored and
emitted accuracy score is `max(0, 100 - 5 * (discrepancy count +
possible-issue count))`, `passed` holds exactly at 80 or above, and the
result does not depend on the weighted per-category inputs at all. -/
theorem claims_C4_sequential_rough_score {α β : Type} (discrepancies : List α)
    (possible_issues : List β) (fallback_results : List CheckResult) :
    (process_claim_final_score discrepancies possible_issues fallback_results).accuracy_score
      = ((max 0 (100 - 5 * ((discrepancies.length + possible_issues.length : ℕ) : ℤ)) : ℤ) : ℚ)
    ∧ ((process_claim_final_score discrepancies possible_issues fallback_results).passed = true
        ↔ max 0 (100 - 5 * ((discrepancies.length + possible_issues.length : ℕ) : ℤ)) ≥ 80)
    ∧ (process_claim_final_score discrepancies possible_issues fallback_results).threshold = 80
    ∧ ∀ (other_results : List CheckResult),
        process_claim_final_score discrepancies possible_issues other_results
          = process_claim_final_score discrepancies possible_issues fallback_results := by
  refine ⟨?_, ?_, rfl, fun other => rfl⟩
  · simp only [process_claim_final_score, sequentialResultsAvailable, if_true]
    norm_num [mul_comm]
  · simp only [process_claim_final_score, sequentialResultsAvailable, if_true,
      decide_eq_true_eq]
    constructor
    · intro h
      have h2 : ((max 0 (100 - ((discrepancies.length + possible_issues.length : ℕ) : ℤ) * 5)
          : ℤ) : ℚ) ≥ 80 := h
      have h3 : (max 0 (100 - ((discrepancies.length + possible_issues.length : ℕ) : ℤ) * 5)
          : ℤ) ≥ 80 := by exact_mod_cast h2
      calc (80 : ℤ) ≤ _ := h3
        _ = _ := by ring_nf
    · intro h
      have h3 : (max 0 (100 - ((discrepancies.length + possible_issues.length : ℕ) : ℤ) * 5)
          : ℤ) ≥ 80 := by
        calc (80 : ℤ) ≤ _ := h
          _ = _ := by ring_nf
      exact_mod_cast h3

/-- Claim C5 counterexample: with `approved_amount = 100` and
`authorized_amount = 500` (both positive), the recorded amount is 100 —
the first truthy field in chain order — not the maximum 500. -/
theorem claims_C5_max_amount_counterexample :
    (0 : ℚ) < 100
    ∧ extract_approved_amount amountsCex = 100
    ∧ specMaxAmount amountsCex = 500
    ∧ extract_approved_amount amountsCex ≠ specMaxAmount amountsCex := by
  have h1 : extract_approved_amount amountsCex = 100 := by
    norm_num [extract_approved_amount, amountsCex, pyOrNum]
  have h2 : specMaxAmount amountsCex = 500 := by
    norm_num [specMaxAmount, amountsCex, List.filterMap]
  exact ⟨by norm_num, h1, h2, by rw [h1, h2]; norm_num⟩

/-- Claim C5 (amended): when every present synonymous amount field is
non-negative, the recorded approved amount is the first field in the
fixed order approved / authorized / sanctioned / admissible that is
present and positive (0 when there is none) — not the maximum. -/
theorem claims_C5_first_truthy_amount (a : ApprovalAmounts)
    (h1 : 0 ≤ a.approved_amount.getD 0) (h2 : 0 ≤ a.authorized_amount.getD 0)
    (h3 : 0 ≤ a.sanctioned_amount.getD 0) (h4 : 0 ≤ a.admissible_amount.getD 0) :
    extract_approved_amount a = firstPositiveAmount a := by
  obtain ⟨oa, ob, oc, od⟩ := a
  have e4 : od.getD 0 = firstPositiveAmount.firstPositiveAmountRest3 ⟨oa, ob, oc, od⟩ := by
    rcases od with _ | x
    · rfl
    · simp only [Option.getD_some] at h4
      simp only [firstPositiveAmount.firstPositiveAmountRest3]
      rcases lt_or_eq_of_le h4 with hpos | hzero
      · rw [if_pos hpos, Option.getD_some]
      · rw [if_neg (hzero ▸ lt_irrefl 0), Option.getD_some, ← hzero]
  have e3 : (pyOrNum oc od).getD 0
      = firstPositiveAmount.firstPositiveAmountRest2 ⟨oa, ob, oc, od⟩ := by
    rcases oc with _ | x
    · simpa [pyOrNum, firstPositiveAmount.firstPositiveAmountRest2] using e4
    · simp only [Option.getD_some] at h3
      simp only [pyOrNum, firstPositiveAmount.firstPositiveAmountRest2]
      rcases lt_or_eq_of_le h3 with hpos | hzero
      · rw [if_neg hpos.ne', if_pos hpos, Option.getD_some]
      · rw [if_pos hzero.symm, if_neg (hzero ▸ lt_irrefl 0)]
        exact e4
  have e2 : (pyOrNum ob (pyOrNum oc od)).getD 0
      = firstPositiveAmount.firstPositiveAmountRest1 ⟨oa, ob, oc, od⟩ := by
    rcases ob with _ | x
    · simpa [pyOrNum, firstPositiveAmount.firstPositiveAmountRest1] using e3
    · simp only [Option.getD_some] at h2
      simp only [pyOrNum, firstPositiveAmount.firstPositiveAmountRest1]
      rcases lt_or_eq_of_le h2 with hpos | hzero
      · rw [if_neg hpos.ne', if_pos hpos, Option.getD_some]
      · rw [if_pos hzero.symm, if_neg (hzero ▸ lt_irrefl 0)]
        exact e3
  have e1 : (pyOrNum oa (pyOrNum ob (pyOrNum oc od))).getD 0
      = firstPositiveAmount ⟨oa, ob, oc, od⟩ := by
    rcases oa with _ | x
    · simpa [pyOrNum, firstPositiveAmount] using e2
    · simp only [Option.getD_some] at h1
      simp only [pyOrNum, firstPositiveAmount]
      rcases lt_or_eq_of_le h1 with hpos | hzero
      · rw [if_neg hpos.ne', if_pos hpos, Option.getD_some]
      · rw [if_pos hzero.symm, if_neg (hzero ▸ lt_irrefl 0)]
        exact e2
  have hfinal : ∀ v : ℚ, (if v = 0 then 0 else v) = v := by
    intro v
    split_ifs with h
    · exact h.symm
    · rfl
  simp only [extract_approved_amount]
  rw [hfinal, e1]

/-- Claim C5 witness: the amended theorem applied to the concrete amounts
(approved 100, authorized 500). -/
theorem claims_C5_first_truthy_amount_witness :
    ((0 : ℚ) ≤ (amountsCex.approved_amount).getD 0
      ∧ (0 : ℚ) ≤ (amountsCex.authorized_amount).getD 0
      ∧ (0 : ℚ) ≤ (amountsCex.sanctioned_amount).getD 0
      ∧ (0 : ℚ) ≤ (amountsCex.admissible_amount).getD 0)
    ∧ extract_approved_amount amountsCex = firstPositiveAmount amountsCex :=
  ⟨⟨by norm_num [amountsCex], by norm_num [amountsCex], by norm_num [amountsCex],
      by norm_num [amountsCex]⟩,
    claims_C5_first_truthy_amount amountsCex (by norm_num [amountsCex])
      (by norm_num [amountsCex]) (by norm_num [amountsCex]) (by norm_num [amountsCex])⟩

/-- Claim C6 counterexample: when the oracle call itself fails (raises
after retries), `_classify_documents_sequential` propagates the exception
instead of returning the all-in-invoice fallback map. -/
theorem claims_C6_call_failure_counterexample :
    classify_documents_sequential ["f0"] (fun _ => true) .callFailure = .error () := rfl

/-- Claim C6 (amended): an unparseable response makes the function return
(not raise) the map with every input file in `invoice` and the other five
buckets empty; but an oracle-call failure propagates as an exception out
of `_classify_documents_sequential`. -/
theorem claims_C6_fallback_behaviour (file_paths : List String)
    (pathExists : String → Bool) :
    classify_documents_sequential file_paths pathExists .unparseable
      = .ok (classifyFallback file_paths)
    ∧ (classifyFallback file_paths).invoice = file_paths
    ∧ (classifyFallback file_paths).discharge_summary = []
    ∧ (classifyFallback file_paths).clinical = []
    ∧ (classifyFallback file_paths).reports = []
    ∧ (classifyFallback file_paths).approval = []
    ∧ (classifyFallback file_paths).other = []
    ∧ classify_documents_sequential file_paths pathExists .callFailure = .error () :=
  ⟨rfl, rfl, rfl, rfl, rfl, rfl, rfl, rfl⟩

/-- Claim C7 counterexample: a single line item with no tariff reference
is marked with the no-reference note and `match = False`, and is counted
in `total_checked` but not in `matched`, driving the tariff category
score to 0 rather than leaving it at 100. -/
theorem claims_C7_no_reference_counterexample :
    (check_tariffs [tariffItemCex] []).total_checked = 1
    ∧ (check_tariffs [tariffItemCex] []).matched = 0
    ∧ (check_tariffs [tariffItemCex] []).tariff_checks.map (fun r => r.note)
        = [some "No tariff reference provided"]
    ∧ (check_tariffs [tariffItemCex] []).tariff_checks.map (fun r => r.priceMatch) = [false]
    ∧ categoryScore (.tariffs 1 0) = 0
    ∧ (0 : ℚ) ≠ 100 := by
  refine ⟨by decide, by decide, by decide, by decide, ?_, by norm_num⟩
  norm_num [categoryScore]

/-- Claim C7 (amended): an item with no matching tariff reference is
marked with the note `No tariff reference provided` and `match = False`;
it is included in `total_checked` and excluded from `matched`, so it does
lower the tariff category score (strictly below 100). -/
theorem claims_C7_no_reference_counted (line_items : List TariffItem)
    (data : List TariffEntryVal) (item : TariffItem) (hmem : item ∈ line_items)
    (hno : tariffEntryFor data item = none) :
    (check_tariffs line_items data).total_checked = line_items.length
    ∧ (checkTariffItem data item).priceMatch = false
    ∧ (checkTariffItem data item).note = some "No tariff reference provided"
    ∧ (check_tariffs line_items data).matched < (check_tariffs line_items data).total_checked
    ∧ categoryScore (.tariffs (check_tariffs line_items data).total_checked
        (check_tariffs line_items data).matched) < 100 := by
  have hrow : checkTariffItem data item
      = { item_code := pyOrStr item.item_code item.code,
          item_name := pyOrStr item.normalized_name (pyOrStr item.item_name item.name),
          billed_price := pyOrNum item.price item.total_price,
          tariff_price := none, priceMatch := false, difference := none,
          note := some "No tariff reference provided" } := by
    simp only [checkTariffItem, hno]
  have htot : (check_tariffs line_items data).total_checked = line_items.length := by
    simp [check_tariffs]
  have hlt : (check_tariffs line_items data).matched
      < (check_tariffs line_items data).total_checked := by
    simp only [check_tariffs]
    exact length_filter_lt_of_mem _ _ (checkTariffItem data item)
      (List.mem_map_of_mem _ hmem) (by rw [hrow])
  refine ⟨htot, by rw [hrow], by rw [hrow], hlt, ?_⟩
  set m := (check_tariffs line_items data).matched with hm
  set t := (check_tariffs line_items data).total_checked with ht
  have htpos : 0 < t := lt_of_le_of_lt (Nat.zero_le m) hlt
  simp only [categoryScore, gt_iff_lt, if_pos htpos]
  have h1 : (m : ℚ) / (t : ℚ) < 1 := by
    rw [div_lt_one (by exact_mod_cast htpos)]
    exact_mod_cast hlt
  calc (m : ℚ) / (t : ℚ) * 100 < 1 * 100 := by
        exact mul_lt_mul_of_pos_right h1 (by norm_num)
    _ = 100 := by norm_num

/-- Claim C7 witness: the amended theorem applied to a one-item list with
an empty tariff dataset. -/
theorem claims_C7_no_reference_counted_witness :
    (tariffItemCex ∈ [tariffItemCex] ∧ tariffEntryFor [] tariffItemCex = none)
    ∧ (check_tariffs [tariffItemCex] []).matched
        < (check_tariffs [tariffItemCex] []).total_checked :=
  ⟨⟨by decide, by decide⟩,
    (claims_C7_no_reference_counted [tariffItemCex] [] tariffItemCex (by decide)
      (by decide)).2.2.2.1⟩

/-- Claim C8 counterexample: a line item whose name (`kit`) matches no
implant keyword, whose type is empty, and whose category is exactly
`implant` still triggers the implant checklist items — so the bare
`implant` string confined to the category tag does trigger them when the
category is one of the three exact values 'implant' / 'medical implant' /
'surgical implant'. -/
theorem claims_C8_category_trigger_counterexample :
    specImplantKeywordMatch noProcs [implantCexItem] = false
    ∧ hasImplantKeyword (pyLower (implantCexItem.item_name.getD "")) = false
    ∧ "Implant Certificate" ∈ (generate_default_checklist noProcs [implantCexItem]
        tpaPayer).map (fun d => d.document_name)
    ∧ "Implant Vendor Invoice" ∈ (generate_default_checklist noProcs [implantCexItem]
        tpaPayer).map (fun d => d.document_name) := by
  refine ⟨by decide, by decide, ?_, ?_⟩ <;> decide

/-- Claim C8 (amended): the implant documentation items appear in the
default checklist exactly when `_has_implants_in_procedures` fires (the
pouch additionally requires a Govt Scheme / Corporate payer), and that
predicate holds exactly when an implant keyword occurs in a procedure
name or line-item name, or the category is exactly one of the three
implant values, or the type field equals or contains `implant`; a
category merely containing `implant` as a substring (such as
`implant-adjacent-care`) does not trigger them. -/
theorem claims_C8_implant_checklist_rule (cs : CaseSummary)
    (items : List ImplantLineItem) (p : PayerInfo) :
    ("Implant Vendor Invoice" ∈ (generate_default_checklist cs items p).map
        (fun d => d.document_name) ↔ has_implants_in_procedures cs items = true)
    ∧ ("Implant Sticker" ∈ (generate_default_checklist cs items p).map
        (fun d => d.document_name) ↔ has_implants_in_procedures cs items = true)
    ∧ ("Implant Certificate" ∈ (generate_default_checklist cs items p).map
        (fun d => d.document_name) ↔ has_implants_in_procedures cs items = true)
    ∧ ("Implant Pouch" ∈ (generate_default_checklist cs items p).map
        (fun d => d.document_name)
        ↔ (has_implants_in_procedures cs items = true ∧ isGovtOrCorporate p = true))
    ∧ (has_implants_in_procedures cs items = true ↔
        (specImplantKeywordMatch cs items = true
          ∨ ∃ item ∈ items,
              pyLower (item.category.getD "") = "implant"
              ∨ pyLower (item.category.getD "") = "medical implant"
              ∨ pyLower (item.category.getD "") = "surgical implant"
              ∨ pyLower (item.type.getD "") = "implant"
              ∨ strContains (pyLower (item.type.getD "")) "implant" = true))
    ∧ has_implants_in_procedures ⟨[], []⟩
        [⟨some "physiotherapy", some "implant-adjacent-care", some "", false⟩] = false :=
  ⟨c8_mem_vendor cs items p, c8_mem_sticker cs items p, c8_mem_certificate cs items p,
    c8_mem_pouch cs items p, has_implants_decomposition cs items, by decide⟩

/-- Claim C9: `evaluate_cashless_status` never rejects: for every
documents input (empty, malformed, or lacking any approval evidence) it
returns status `valid` with `is_cashless = True`. -/
theorem claims_C9_always_cashless (documents : List (String × DocVal)) :
    (evaluate_cashless_status documents).status = "valid"
    ∧ (evaluate_cashless_status documents).is_cashless = true :=
  ⟨rfl, rfl⟩

/-- Claim C10: against the inclusive approval window, a service date equal
to either boundary is valid, a date one day before the start or one day
after the end is invalid, and an item with a missing date is reported in
`missing_dates` and in neither of the other two lists. -/
theorem claims_C10_inclusive_window (approvalFrom approvalTo : ℤ)
    (h : approvalFrom ≤ approvalTo) :
    classifyServiceDate approvalFrom approvalTo (some approvalFrom) = .valid
    ∧ classifyServiceDate approvalFrom approvalTo (some approvalTo) = .valid
    ∧ classifyServiceDate approvalFrom approvalTo (some (approvalFrom - 1)) = .invalid
    ∧ classifyServiceDate approvalFrom approvalTo (some (approvalTo + 1)) = .invalid
    ∧ ∀ (items : List DateLineItem) (i : DateLineItem), i ∈ items →
        i.date_of_service = none →
          i ∈ (check_dates_spec items approvalFrom approvalTo).missing_dates
          ∧ i ∉ (check_dates_spec items approvalFrom approvalTo).invalid_items
          ∧ i ∉ (check_dates_spec items approvalFrom approvalTo).valid_items := by
  refine ⟨?_, ?_, ?_, ?_, ?_⟩
  · simp [classifyServiceDate, not_lt.mpr h, lt_irrefl]
  · simp [classifyServiceDate, not_lt.mpr h, lt_irrefl]
  · simp [classifyServiceDate, show approvalFrom - 1 < approvalFrom by omega]
  · simp [classifyServiceDate, show approvalTo < approvalTo + 1 by omega]
  · intro items i hmem hnone
    refine ⟨?_, ?_, ?_⟩
    · simp [check_dates_spec, List.mem_filter, hmem, classifyServiceDate, hnone]
    · simp [check_dates_spec, List.mem_filter, classifyServiceDate, hnone]
    · simp [check_dates_spec, List.mem_filter, classifyServiceDate, hnone]

/-- Claim C10 witness: the theorem applied to the window from day 0 to
day 1. -/
theorem claims_C10_inclusive_window_witness :
    (0 : ℤ) ≤ 1 ∧ classifyServiceDate 0 1 (some 0) = .valid :=
  ⟨by decide, (claims_C10_inclusive_window 0 1 (by decide)).1⟩
